import Mathlib

/-!
Verification of the sensor-guard core: the failure-counting state machine,
reset policies, per-key tracked sections, and cursor persistence, together
with the scripted demo sensors of src/sensor_guard_demo/sensors.py.
The guard library itself is not shipped in src/, so its operations are
modelled from the specification; the demo sensor scripts are translated
from the source.
-/

namespace SensorGuard

/-- A raised error of the demo sensors, modelled by its type and message
(the sensors raise ConnectionError and RuntimeError with message strings). -/
inductive PyError
  | connectionError (msg : String)
  | runtimeError (msg : String)
  | valueError (msg : String)
  deriving DecidableEq, Repr

/-- Modelled from the spec: ResetPolicy (spec section 3) of the
dagster_sensor_guard library, which is absent from src. Full resets the
counter to zero on success; Decay subtracts the given amount, floored at 0. -/
inductive ResetPolicy
  | full
  | decay (amount : Nat)
  deriving DecidableEq, Repr

/-- Modelled from the spec: the construction-time configuration of a Guard
(spec sections 4.1 and 6): a threshold and a reset policy. -/
structure GuardConfig where
  threshold : Nat
  policy : ResetPolicy
  deriving DecidableEq, Repr

/-- Modelled from the spec: GuardState (spec section 3), a mapping from
resource key to consecutive-failure counter, kept as key/count pairs. -/
structure GuardState where
  entries : List (String × Nat)
  deriving DecidableEq, Repr

/-- Counter lookup: absent key means counter at 0 (spec section 3). -/
def lookupG (s : GuardState) (k : String) : Nat :=
  match s.entries.find? (fun p => p.1 == k) with
  | some p => p.2
  | none => 0

def setEntries (k : String) (v : Nat) : List (String × Nat) → List (String × Nat)
  | [] => [(k, v)]
  | p :: rest => if p.1 == k then (k, v) :: rest else p :: setEntries k v rest

/-- Store an updated counter for one key, leaving all other entries alone. -/
def setG (s : GuardState) (k : String) (v : Nat) : GuardState :=
  ⟨setEntries k v s.entries⟩

def emptyG : GuardState := ⟨[]⟩

/-- Modelled from the spec: the per-section Decision (spec section 3). -/
inductive Decision (ε ρ : Type)
  | succeeded (r : ρ)
  | suppressed (count threshold : Nat)
  | breached (e : ε) (count threshold : Nat)
  deriving DecidableEq, Repr

/-- Modelled from the spec: reset policy applied to a counter on success:
0 for Full, max(0, value - amount) for Decay (Nat subtraction truncates). -/
def applyReset (p : ResetPolicy) (c : Nat) : Nat :=
  match p with
  | .full => 0
  | .decay a => c - a

/-- Modelled from the spec: Guard.evaluate (spec section 4.1). Looks up the
key's counter, runs the work once; on success applies the reset policy; on
failure increments by 1 and decides Breached when the new value exceeds the
threshold, Suppressed otherwise. Returns the decision and the updated state. -/
def evaluate (cfg : GuardConfig) (s : GuardState) (k : String)
    (work : Except ε ρ) : Decision ε ρ × GuardState :=
  let c := lookupG s k
  match work with
  | .ok r => (Decision.succeeded r, setG s k (applyReset cfg.policy c))
  | .error e =>
    let n := c + 1
    if cfg.threshold < n then (Decision.breached e n cfg.threshold, setG s k n)
    else (Decision.suppressed n cfg.threshold, setG s k n)

/-! Decimal printing and parsing used for the cursor encoding. -/

def digitToChar (d : Nat) : Char := Char.ofNat (48 + d)

def charToDigit (c : Char) : Nat := c.toNat - 48

def isDigitCh (c : Char) : Bool := decide (48 ≤ c.toNat) && decide (c.toNat ≤ 57)

/-- Big-endian decimal digits of n, fuel-based so it reduces in the kernel:
each step emits the least significant digit of n in front of the
accumulator and continues with n / 10. -/
def toDecimalAux : Nat → Nat → List Char → List Char
  | 0, _, acc => acc
  | fuel + 1, n, acc =>
    if n = 0 then acc
    else toDecimalAux fuel (n / 10) (digitToChar (n % 10) :: acc)

/-- Decimal rendering of a natural number, as Python str() produces it. -/
def printNat (n : Nat) : List Char :=
  if n = 0 then [digitToChar 0] else toDecimalAux n n []

def step10 (a : Nat) (c : Char) : Nat := 10 * a + charToDigit c

/-- Numeric value of a big-endian string of decimal digit characters. -/
def digitsVal (l : List Char) : Nat := l.foldl step10 0

/-- Parse a maximal leading run of decimal digits; fails when there is none.
Returns the parsed value and the unconsumed remainder. -/
def decodeNat (l : List Char) : Option (Nat × List Char) :=
  let ds := l.takeWhile isDigitCh
  if ds.isEmpty then none else some (digitsVal ds, l.dropWhile isDigitCh)

/-! Modelled from the spec: cursor persistence (spec section 4.3) of the
dagster_sensor_guard library, absent from src. GuardState is encoded as
key-to-count pairs in a canonical (sorted, duplicate-free) order so the
encoding is stable and independent of mapping iteration order; keys are
length-prefixed so arbitrary key strings round-trip. -/

def encodeEntry (k : String) (v : Nat) : List Char :=
  printNat k.data.length ++ [','] ++ k.data ++ [','] ++ printNat v ++ [';']

def encodeEntries : List (String × Nat) → List Char
  | [] => []
  | (k, v) :: rest => encodeEntry k v ++ encodeEntries rest

def decodeEntry (l : List Char) : Option ((String × Nat) × List Char) :=
  match decodeNat l with
  | none => none
  | some (len, r1) =>
    match r1 with
    | ',' :: r2 =>
      if len ≤ r2.length then
        match r2.drop len with
        | ',' :: r3 =>
          match decodeNat r3 with
          | none => none
          | some (v, r4) =>
            match r4 with
            | ';' :: r5 => some ((String.mk (r2.take len), v), r5)
            | _ => none
        | _ => none
      else none
    | _ => none

def decodeEntries : Nat → List Char → Option (List (String × Nat))
  | _, [] => some []
  | 0, _ :: _ => none
  | fuel + 1, c :: l =>
    match decodeEntry (c :: l) with
    | none => none
    | some (e, rest) =>
      match decodeEntries fuel rest with
      | none => none
      | some es => some (e :: es)

/-- Insertion of a string into a ≤-sorted list of strings. -/
def insortStr (x : String) : List String → List String
  | [] => [x]
  | y :: ys => if x ≤ y then x :: y :: ys else y :: insortStr x ys

def sortStrs (l : List String) : List String := l.foldr insortStr []

def guardKeys (s : GuardState) : List String := (s.entries.map Prod.fst).dedup

/-- Canonical form of a GuardState: its key-to-count mapping listed in
sorted key order, one entry per key. -/
def canonicalEntries (s : GuardState) : List (String × Nat) :=
  (sortStrs (guardKeys s)).map (fun k => (k, lookupG s k))

def serializeGuard (s : GuardState) : List Char := encodeEntries (canonicalEntries s)

/-- Modelled from the spec: restoring GuardState from the guard portion of
the cursor; a malformed portion is treated as the empty state, never an
error (spec sections 4.3 and 7). -/
def deserializeGuard (l : List Char) : GuardState :=
  match decodeEntries (l.length + 1) l with
  | some es => GuardState.mk es
  | none => emptyG

/-- Modelled from the spec: the adapter composes a single serialized token
holding both the guard portion and the host's own opaque cursor payload
(spec section 4.3). The guard portion is length-prefixed in front. -/
def composeCursor (g : List Char) (host : String) : String :=
  String.mk (printNat g.length ++ '|' :: (g ++ host.data))

/-- Split a combined cursor token into guard portion and host payload;
fails when the token does not carry a well-formed guard portion. -/
def splitCursor (cursor : String) : Option (List Char × String) :=
  match decodeNat cursor.data with
  | none => none
  | some (len, rest) =>
    match rest with
    | [] => none
    | c :: rest2 =>
      if c = '|' ∧ len ≤ rest2.length then
        some (rest2.take len, String.mk (rest2.drop len))
      else none

/-- Modelled from the spec: GuardState restoration at the start of a tick;
a cursor with a missing or malformed guard portion yields the empty state
and is passed through whole as the host payload (spec section 4.3). -/
def restoreFromCursor (cursor : String) : GuardState × String :=
  match splitCursor cursor with
  | some (g, host) => (deserializeGuard g, host)
  | none => (emptyG, cursor)

/-! Modelled from the spec: the adapter / host binding (spec section 4.4). -/

/-- An execution request registered by a successful tick; modelled by its
deduplication key, which is all the demo sensors set. -/
structure RunRequest where
  run_key : String
  deriving DecidableEq, Repr

/-- The host's vocabulary for a tick outcome: run requests on success, a
skip with a reason on suppression, an error raised to the host on breach. -/
inductive HostOutcome (ε ρ : Type)
  | requests (rs : ρ)
  | skip (reason : String)
  | failure (e : ε)
  deriving DecidableEq, Repr

/-- Modelled from the spec: the fixed implicit key of single-key mode. -/
def defaultKey : String := "default"

def skipMsg (k : String) (count threshold : Nat) : String :=
  k ++ ": " ++ String.mk (printNat count) ++ "/" ++ String.mk (printNat threshold)
    ++ " consecutive failures, suppressed"

/-- Modelled from the spec: one adapter invocation in single-key mode
(spec sections 2 and 4.4): restore GuardState from the cursor, run the
wrapped task on the host payload, evaluate the outcome under the implicit
key, and serialize the updated state back into the returned cursor on
every exit path, the breach path included. The task yields its results
and the updated host payload on success. -/
def runTick (cfg : GuardConfig) (cursor : String)
    (task : String → Except ε (ρ × String)) : String × HostOutcome ε ρ :=
  let rs := restoreFromCursor cursor
  match evaluate cfg rs.1 defaultKey (task rs.2) with
  | (Decision.succeeded rh, gs2) =>
    (composeCursor (serializeGuard gs2) rh.2, HostOutcome.requests rh.1)
  | (Decision.suppressed c t, gs2) =>
    (composeCursor (serializeGuard gs2) rs.2, HostOutcome.skip (skipMsg defaultKey c t))
  | (Decision.breached e _ _, gs2) =>
    (composeCursor (serializeGuard gs2) rs.2, HostOutcome.failure e)

/-- Modelled from the spec: per-key tracked-section orchestration
(spec section 4.2). Sections run in order, each evaluated against its own
key; a suppressed failure is swallowed and execution resumes with the next
section; a breach stops the invocation at once, returning the original
error, so later sections are never entered. -/
def runSections (cfg : GuardConfig) :
    GuardState → List (String × Except ε (List ρ)) → GuardState × List ρ × Option ε
  | s, [] => (s, [], none)
  | s, (k, body) :: rest =>
    match evaluate cfg s k body with
    | (Decision.succeeded rs, s2) =>
      let out := runSections cfg s2 rest
      (out.1, rs ++ out.2.1, out.2.2)
    | (Decision.suppressed _ _, s2) => runSections cfg s2 rest
    | (Decision.breached e _ _, s2) => (s2, [], some e)

/-! The scripted demo sensors, translated from
src/sensor_guard_demo/sensors.py. -/

/-- Python int(cursor or 0) for the cursor strings these sensors write:
an empty cursor reads as 0; a non-empty all-digit cursor reads as its
decimal value; anything else raises ValueError, modelled as none. -/
def pyIntOr0 (s : String) : Option Nat :=
  if s.data.isEmpty then some 0
  else if s.data.all isDigitCh then some (digitsVal s.data) else none

/-- The cursor text interpolated into the run key: Python formats
(context.cursor or 0), so an empty cursor prints as 0 and any other
cursor is embedded verbatim. -/
def cursorText (s : String) : String :=
  if s.data.isEmpty then String.mk (printNat 0) else s

/-- The shared body shape of flaky_sensor, recovers_after_failure_sensor
and decay_recovery_sensor: on tick numbers inside the script a False entry
raises the given error; otherwise the sensor yields one RunRequest whose
run key embeds the current cursor and advances the cursor to the decimal
successor of its integer value. -/
def scriptedTask (keyStem : String) (script : List Bool) (e : PyError)
    (tick : Nat) (cursor : String) : Except PyError (List RunRequest × String) :=
  if tick < script.length ∧ script.getD tick true = false then Except.error e
  else
    match pyIntOr0 cursor with
    | none => Except.error (PyError.valueError cursor)
    | some n =>
      Except.ok ([RunRequest.mk (keyStem ++ "-" ++ cursorText cursor)],
        String.mk (printNat (n + 1)))

def flakyScript : List Bool :=
  [false, true,
   false, false, true,
   false, true,
   false, false, false, true,
   false, false, false, false, true]

def recoveryScript : List Bool := [false, false, false, false, true, false, true]

def decayScript : List Bool :=
  [false, false, false, false, false,
   true,
   false,
   true, true, true, true,
   true, true, true, true,
   false,
   true]

/-- always_failing_sensor: raises ConnectionError on every tick. -/
def alwaysFailingTask (c : String) :
    Except PyError (List RunRequest × String) :=
  Except.error (PyError.connectionError "Simulated external service unreachable")

/-- The three tracked sections of multi_table_sensor at a given tick, in
invocation order: orders always succeeds, customers fails on the first two
ticks, inventory fails on the first four ticks. -/
def multiTableSections (tick : Nat) :
    List (String × Except PyError (List RunRequest)) :=
  [("orders", Except.ok [RunRequest.mk ("orders-" ++ String.mk (printNat tick))]),
   ("customers",
    if tick < 2 then
      Except.error (PyError.connectionError
        ("customers table unreachable (tick " ++ String.mk (printNat (tick + 1)) ++ ")"))
    else Except.ok [RunRequest.mk ("customers-" ++ String.mk (printNat tick))]),
   ("inventory",
    if tick < 4 then
      Except.error (PyError.connectionError
        ("inventory table unreachable (tick " ++ String.mk (printNat (tick + 1)) ++ ")"))
    else Except.ok [RunRequest.mk ("inventory-" ++ String.mk (printNat tick))])]

/-- The value accumulated by folding step10 over the decimal digits of n,
starting from a: the specification of what toDecimalAux prepends. -/
def combine (a : Nat) (n : Nat) : Nat :=
  if n = 0 then a else 10 * combine a (n / 10) + n % 10
  termination_by n
  decreasing_by exact Nat.div_lt_self (by omega) (by omega)

/-- Whether the scripted sensor body raises at a given module-level tick:
inside the script a False entry fails, past the script it always succeeds. -/
def failsAt (script : List Bool) (tick : Nat) : Bool :=
  decide (tick < script.length) && (script.getD tick true == false)

/-- Run count consecutive adapter ticks of a scripted sensor, starting at
module tick number tick with the given combined cursor; returns the final
cursor and the run keys of all RunRequests produced along the way. -/
def runScripted (cfg : GuardConfig) (stem : String) (script : List Bool)
    (e : PyError) : Nat → Nat → String → String × List String
  | 0, _, cursor => (cursor, [])
  | count + 1, tick, cursor =>
    let step := runTick cfg cursor (scriptedTask stem script e tick)
    let rest := runScripted cfg stem script e count (tick + 1) step.1
    (rest.1,
      (match step.2 with
       | HostOutcome.requests rs => rs.map RunRequest.run_key
       | _ => []) ++ rest.2)

/-- The successive host-cursor integers at which the scripted sensor
succeeds during a window of ticks, when the window starts at host value n. -/
def successVals (script : List Bool) : Nat → Nat → Nat → List Nat
  | 0, _, _ => []
  | count + 1, tick, n =>
    if failsAt script tick then successVals script count (tick + 1) n
    else n :: successVals script count (tick + 1) (n + 1)

/-- State after i consecutive failing evaluations of key k (with error e),
starting from state s. -/
def failTimes (cfg : GuardConfig) (k : String) (e : PyError) (s : GuardState) :
    Nat → GuardState
  | 0 => s
  | n + 1 =>
    (evaluate (ρ := Unit) cfg (failTimes cfg k e s n) k (Except.error e)).2

/-- The decision produced by the i-th consecutive failure (i counted from
1) of key k starting from state s. -/
def failDecision (cfg : GuardConfig) (k : String) (e : PyError) (s : GuardState)
    (i : Nat) : Decision PyError Unit :=
  (evaluate cfg (failTimes cfg k e s (i - 1)) k (Except.error e)).1

/-- State after n consecutive successful evaluations of key k (returning
r), starting from state s. -/
def succTimes (cfg : GuardConfig) (k : String) (r : Unit) (s : GuardState) :
    Nat → GuardState
  | 0 => s
  | n + 1 =>
    (evaluate (ε := PyError) cfg (succTimes cfg k r s n) k (Except.ok r)).2

theorem lookupG_setG_same (s : GuardState) (k : String) (v : Nat) :
    lookupG (setG s k v) k = v := by
  unfold lookupG setG
  induction s.entries with
  | nil => simp [setEntries]
  | cons p rest ih =>
    by_cases h : p.1 == k
    · simp [setEntries, h, List.find?]
    · simpa [setEntries, h, List.find?] using ih

theorem lookupG_setG_other (s : GuardState) (k q : String) (v : Nat)
    (hne : q ≠ k) : lookupG (setG s k v) q = lookupG s q := by
  unfold lookupG setG
  induction s.entries with
  | nil =>
    have hkq : (k == q) = false := by
      simp
      exact fun h => hne h.symm
    simp [setEntries, List.find?, hkq]
  | cons p rest ih =>
    by_cases h : p.1 == k
    · have hpk : p.1 = k := by simpa using h
      have hpq : (p.1 == q) = false := by
        simp [hpk]
        intro hkq
        exact hne hkq.symm
      have hkq : (k == q) = false := by
        simp
        intro hkq
        exact hne hkq.symm
      simp [setEntries, h, List.find?, hpq, hkq]
    · by_cases h2 : p.1 == q
      · simp [setEntries, h, List.find?, h2]
      · simpa [setEntries, h, List.find?, h2] using ih

theorem evaluate_ok_snd (cfg : GuardConfig) (s : GuardState) (k : String)
    (r : ρ) : (evaluate (ε := PyError) cfg s k (Except.ok r)).2 =
      setG s k (applyReset cfg.policy (lookupG s k)) := rfl

theorem evaluate_error_snd (cfg : GuardConfig) (s : GuardState) (k : String)
    (e : PyError) : (evaluate (ρ := ρ) cfg s k (Except.error e)).2 =
      setG s k (lookupG s k + 1) := by
  unfold evaluate
  dsimp only
  split <;> rfl

theorem evaluate_error_fst (cfg : GuardConfig) (s : GuardState) (k : String)
    (e : PyError) : (evaluate (ρ := ρ) cfg s k (Except.error e)).1 =
      if cfg.threshold < lookupG s k + 1 then
        Decision.breached e (lookupG s k + 1) cfg.threshold
      else Decision.suppressed (lookupG s k + 1) cfg.threshold := by
  unfold evaluate
  dsimp only
  split <;> rfl

theorem lookupG_failTimes (cfg : GuardConfig) (k : String) (e : PyError)
    (s : GuardState) (n : Nat) :
    lookupG (failTimes cfg k e s n) k = lookupG s k + n := by
  induction n with
  | zero => rfl
  | succ m ih =>
    show lookupG (evaluate (ρ := Unit) cfg (failTimes cfg k e s m) k
      (Except.error e)).2 k = _
    rw [evaluate_error_snd, lookupG_setG_same, ih]
    omega

/-- C1: with a positive threshold T, during a run of consecutive failures
for a key whose counter starts at 0, the i-th consecutive failure is
suppressed exactly when i ≤ T and breaches exactly when i > T; since the
characterization holds for every i ≥ 1, every further consecutive failure
past the threshold breaches as well. -/
theorem failure_streak_suppress_iff (cfg : GuardConfig) (k : String)
    (e : PyError) (s : GuardState) (i : Nat) (hT : 0 < cfg.threshold)
    (h0 : lookupG s k = 0) (hi : 1 ≤ i) :
    (failDecision cfg k e s i = Decision.suppressed i cfg.threshold ↔
      i ≤ cfg.threshold) ∧
    (failDecision cfg k e s i = Decision.breached e i cfg.threshold ↔
      cfg.threshold < i) := by
  have hc : lookupG (failTimes cfg k e s (i - 1)) k = i - 1 := by
    rw [lookupG_failTimes, h0]
    omega
  unfold failDecision
  rw [evaluate_error_fst, hc]
  have hi1 : i - 1 + 1 = i := by omega
  rw [hi1]
  by_cases hlt : cfg.threshold < i
  · have hns : ¬ i ≤ cfg.threshold := by omega
    simp [hlt, hns]
  · have hs : i ≤ cfg.threshold := by omega
    simp [hlt, hs]

theorem failure_streak_suppress_iff_witness :
    0 < (3 : Nat) ∧ lookupG emptyG "inventory" = 0 ∧ (1 : Nat) ≤ 4 ∧
    ((failDecision (GuardConfig.mk 3 ResetPolicy.full) "inventory"
        (PyError.connectionError "down") emptyG 4 = Decision.suppressed 4 3 ↔
        (4 : Nat) ≤ 3) ∧
     (failDecision (GuardConfig.mk 3 ResetPolicy.full) "inventory"
        (PyError.connectionError "down") emptyG 4 =
        Decision.breached (PyError.connectionError "down") 4 3 ↔ (3 : Nat) < 4)) :=
  ⟨by decide, by rfl, by decide,
    failure_streak_suppress_iff (GuardConfig.mk 3 ResetPolicy.full) "inventory"
      (PyError.connectionError "down") emptyG 4 (by decide) (by rfl) (by decide)⟩

/-- C2: under the Full reset policy, a single successful evaluation of a
key sets that key's counter to exactly 0 whatever it was before, and the
next failure for that key is counted as 1: with a positive threshold it is
suppressed carrying count 1. -/
theorem full_reset_on_success (cfg : GuardConfig) (s : GuardState)
    (k : String) (r : Unit) (e : PyError) (hp : cfg.policy = ResetPolicy.full)
    (hT : 0 < cfg.threshold) :
    lookupG (evaluate (ε := PyError) cfg s k (Except.ok r)).2 k = 0 ∧
    (evaluate (ρ := Unit) cfg (evaluate (ε := PyError) cfg s k (Except.ok r)).2 k
        (Except.error e)).1 = Decision.suppressed 1 cfg.threshold := by
  have h0 : lookupG (evaluate (ε := PyError) cfg s k (Except.ok r)).2 k = 0 := by
    rw [evaluate_ok_snd, lookupG_setG_same, hp]
    rfl
  refine ⟨h0, ?_⟩
  rw [evaluate_error_fst, h0]
  have : ¬ cfg.threshold < 0 + 1 := by omega
  simp [this]

theorem full_reset_on_success_witness :
    (GuardConfig.mk 3 ResetPolicy.full).policy = ResetPolicy.full ∧
    0 < (3 : Nat) ∧
    (lookupG (evaluate (ε := PyError) (GuardConfig.mk 3 ResetPolicy.full)
        (GuardState.mk [("default", 7)]) "default" (Except.ok ())).2 "default" = 0 ∧
     (evaluate (ρ := Unit) (GuardConfig.mk 3 ResetPolicy.full)
        (evaluate (ε := PyError) (GuardConfig.mk 3 ResetPolicy.full)
          (GuardState.mk [("default", 7)]) "default" (Except.ok ())).2 "default"
        (Except.error (PyError.runtimeError "oops"))).1 =
       Decision.suppressed 1 3) :=
  ⟨by rfl, by decide,
    full_reset_on_success (GuardConfig.mk 3 ResetPolicy.full)
      (GuardState.mk [("default", 7)]) "default" () (PyError.runtimeError "oops")
      (by rfl) (by decide)⟩

theorem lookupG_succTimes (cfg : GuardConfig) (k : String) (r : Unit)
    (s : GuardState) (D : Nat) (hp : cfg.policy = ResetPolicy.decay D) (n : Nat) :
    lookupG (succTimes cfg k r s n) k = lookupG s k - n * D := by
  induction n with
  | zero => simp [succTimes]
  | succ m ih =>
    show lookupG (evaluate (ε := PyError) cfg (succTimes cfg k r s m) k
      (Except.ok r)).2 k = _
    rw [evaluate_ok_snd, lookupG_setG_same, hp, ih]
    show lookupG s k - m * D - D = _
    rw [Nat.sub_sub, Nat.succ_mul]

/-- C3: under the Decay policy with positive amount D, one success maps a
counter c to max(0, c - D) (stated over the integers to exhibit the floor
at zero, so the counter never goes below zero), and after n successes the
counter is exactly 0 precisely when n ≥ ceil(c/D) = (c + D - 1)/D: that
many successes are required to reach 0 and any further successes leave it
there. -/
theorem decay_reset_behaviour (cfg : GuardConfig) (s : GuardState)
    (k : String) (r : Unit) (D : Nat) (hp : cfg.policy = ResetPolicy.decay D)
    (hD : 0 < D) :
    ((lookupG (evaluate (ε := PyError) cfg s k (Except.ok r)).2 k : Int) =
      max 0 ((lookupG s k : Int) - (D : Int))) ∧
    (∀ n : Nat, lookupG (succTimes cfg k r s n) k = 0 ↔
      (lookupG s k + D - 1) / D ≤ n) := by
  constructor
  · rw [evaluate_ok_snd, lookupG_setG_same, hp]
    show ((lookupG s k - D : Nat) : Int) = _
    rcases le_total D (lookupG s k) with h | h
    · rw [Nat.cast_sub h, max_eq_right]
      omega
    · rw [Nat.sub_eq_zero_of_le h, max_eq_left]
      · rfl
      · omega
  · intro n
    rw [lookupG_succTimes cfg k r s D hp n]
    rw [Nat.sub_eq_zero_iff_le, Nat.div_le_iff_le_mul_add_pred hD]
    have hmul : D * n = n * D := Nat.mul_comm D n
    rw [hmul]
    generalize n * D = m
    omega

theorem decay_reset_behaviour_witness :
    (GuardConfig.mk 3 (ResetPolicy.decay 2)).policy = ResetPolicy.decay 2 ∧
    0 < (2 : Nat) ∧
    (((lookupG (evaluate (ε := PyError) (GuardConfig.mk 3 (ResetPolicy.decay 2))
        (GuardState.mk [("default", 5)]) "default" (Except.ok ())).2 "default" : Int) =
      max 0 ((lookupG (GuardState.mk [("default", 5)]) "default" : Int) - (2 : Int))) ∧
     (∀ n : Nat, lookupG (succTimes (GuardConfig.mk 3 (ResetPolicy.decay 2))
        "default" () (GuardState.mk [("default", 5)]) n) "default" = 0 ↔
        (lookupG (GuardState.mk [("default", 5)]) "default" + 2 - 1) / 2 ≤ n)) :=
  ⟨by rfl, by decide,
    decay_reset_behaviour (GuardConfig.mk 3 (ResetPolicy.decay 2))
      (GuardState.mk [("default", 5)]) "default" () 2 (by rfl) (by decide)⟩

/-- C6: one call of evaluate mutates at most the entry of the evaluated
key: for any other key q, whatever the outcome of the work (success,
suppression, or breach), q's counter is unchanged. -/
theorem evaluate_frame (cfg : GuardConfig) (s : GuardState) (k q : String)
    (work : Except PyError Unit) (hne : q ≠ k) :
    lookupG (evaluate cfg s k work).2 q = lookupG s q := by
  cases work with
  | ok r => rw [evaluate_ok_snd, lookupG_setG_other _ _ _ _ hne]
  | error e => rw [evaluate_error_snd, lookupG_setG_other _ _ _ _ hne]

theorem evaluate_frame_witness :
    "orders" ≠ "inventory" ∧
    lookupG (evaluate (ρ := Unit) (GuardConfig.mk 3 ResetPolicy.full)
      (GuardState.mk [("orders", 0), ("inventory", 3)]) "inventory"
      (Except.error (PyError.connectionError "down"))).2 "orders" =
      lookupG (GuardState.mk [("orders", 0), ("inventory", 3)]) "orders" :=
  ⟨by decide,
    evaluate_frame (GuardConfig.mk 3 ResetPolicy.full)
      (GuardState.mk [("orders", 0), ("inventory", 3)]) "inventory" "orders"
      (Except.error (PyError.connectionError "down")) (by decide)⟩

theorem evaluate_ok_eq (cfg : GuardConfig) (s : GuardState) (k : String)
    (r : ρ) : evaluate (ε := PyError) cfg s k (Except.ok r) =
      (Decision.succeeded r, setG s k (applyReset cfg.policy (lookupG s k))) := rfl

theorem evaluate_error_eq_breached (cfg : GuardConfig) (s : GuardState)
    (k : String) (e : PyError) (hbr : cfg.threshold < lookupG s k + 1) :
    evaluate (ρ := ρ) cfg s k (Except.error e) =
      (Decision.breached e (lookupG s k + 1) cfg.threshold,
       setG s k (lookupG s k + 1)) := by
  unfold evaluate
  dsimp only
  rw [if_pos hbr]

theorem evaluate_error_eq_suppressed (cfg : GuardConfig) (s : GuardState)
    (k : String) (e : PyError) (hns : ¬ cfg.threshold < lookupG s k + 1) :
    evaluate (ρ := ρ) cfg s k (Except.error e) =
      (Decision.suppressed (lookupG s k + 1) cfg.threshold,
       setG s k (lookupG s k + 1)) := by
  unfold evaluate
  dsimp only
  rw [if_neg hns]

theorem runSections_cons_ok {cfg : GuardConfig} {s : GuardState} {k : String}
    {rs : List RunRequest} {rest : List (String × Except PyError (List RunRequest))} :
    runSections cfg s ((k, Except.ok rs) :: rest) =
      ((runSections cfg (setG s k (applyReset cfg.policy (lookupG s k))) rest).1,
       rs ++ (runSections cfg (setG s k (applyReset cfg.policy (lookupG s k))) rest).2.1,
       (runSections cfg (setG s k (applyReset cfg.policy (lookupG s k))) rest).2.2) := by
  simp only [runSections, evaluate_ok_eq]

theorem runSections_cons_err_sup {cfg : GuardConfig} {s : GuardState}
    {k : String} {e : PyError} {rest : List (String × Except PyError (List RunRequest))}
    (hns : ¬ cfg.threshold < lookupG s k + 1) :
    runSections cfg s ((k, Except.error e) :: rest) =
      runSections cfg (setG s k (lookupG s k + 1)) rest := by
  simp only [runSections]
  rw [evaluate_error_eq_suppressed cfg s k e hns]

theorem runSections_cons_err_br {cfg : GuardConfig} {s : GuardState}
    {k : String} {e : PyError} {rest : List (String × Except PyError (List RunRequest))}
    (hbr : cfg.threshold < lookupG s k + 1) :
    runSections cfg s ((k, Except.error e) :: rest) =
      (setG s k (lookupG s k + 1), [], some e) := by
  simp only [runSections]
  rw [evaluate_error_eq_breached cfg s k e hbr]

/-- C7: in per-key mode, when a section's failure breaches, the original
error is surfaced right there and the rest of the invocation is aborted:
given that the sections before it ran without a breach, producing state s1
and results out1, the whole invocation returns exactly out1, the state s1
updated only by the breaching key's increment, and the original error e;
the sections after the breaching one are never entered, so they execute no
work, emit no results and update no counter. -/
theorem breach_aborts_remaining_sections (cfg : GuardConfig)
    (s s1 : GuardState) (pre rest : List (String × Except PyError (List RunRequest)))
    (out1 : List RunRequest) (k : String) (e : PyError)
    (hpre : runSections cfg s pre = (s1, out1, none))
    (hbr : cfg.threshold < lookupG s1 k + 1) :
    runSections cfg s (pre ++ (k, Except.error e) :: rest) =
      (setG s1 k (lookupG s1 k + 1), out1, some e) := by
  induction pre generalizing s out1 with
  | nil =>
    simp only [runSections, Prod.mk.injEq] at hpre
    obtain ⟨rfl, rfl, -⟩ := hpre
    rw [List.nil_append, runSections_cons_err_br hbr]
  | cons hd tl ih =>
    obtain ⟨k0, body⟩ := hd
    cases body with
    | ok rs =>
      rw [runSections_cons_ok] at hpre
      simp only [Prod.mk.injEq] at hpre
      obtain ⟨h1, h2, h3⟩ := hpre
      have hX : runSections cfg (setG s k0 (applyReset cfg.policy (lookupG s k0))) tl =
          (s1, (runSections cfg (setG s k0 (applyReset cfg.policy (lookupG s k0))) tl).2.1,
           none) := by
        rw [← h1, ← h3]
      rw [List.cons_append, runSections_cons_ok, ih _ _ hX, ← h2]
    | error e0 =>
      by_cases hc : cfg.threshold < lookupG s k0 + 1
      · rw [runSections_cons_err_br hc] at hpre
        simp only [Prod.mk.injEq] at hpre
        exact absurd hpre.2.2 (by simp)
      · rw [runSections_cons_err_sup hc] at hpre
        rw [List.cons_append, runSections_cons_err_sup hc]
        exact ih _ _ hpre

theorem breach_aborts_remaining_sections_witness :
    runSections (GuardConfig.mk 3 ResetPolicy.full)
        (GuardState.mk [("inventory", 3)])
        [("orders", Except.ok [RunRequest.mk "orders-3"]),
         ("customers", Except.ok [RunRequest.mk "customers-3"])] =
      (GuardState.mk [("inventory", 3), ("orders", 0), ("customers", 0)],
       [RunRequest.mk "orders-3", RunRequest.mk "customers-3"],
       (none : Option PyError)) ∧
    (3 : Nat) < lookupG
        (GuardState.mk [("inventory", 3), ("orders", 0), ("customers", 0)])
        "inventory" + 1 ∧
    runSections (GuardConfig.mk 3 ResetPolicy.full)
        (GuardState.mk [("inventory", 3)])
        ([("orders", Except.ok [RunRequest.mk "orders-3"]),
          ("customers", Except.ok [RunRequest.mk "customers-3"])] ++
         ("inventory", Except.error (PyError.connectionError
            "inventory table unreachable (tick 4)")) :: []) =
      (setG (GuardState.mk [("inventory", 3), ("orders", 0), ("customers", 0)])
         "inventory"
         (lookupG (GuardState.mk [("inventory", 3), ("orders", 0), ("customers", 0)])
           "inventory" + 1),
       [RunRequest.mk "orders-3", RunRequest.mk "customers-3"],
       some (PyError.connectionError "inventory table unreachable (tick 4)")) :=
  ⟨by decide, by decide,
    breach_aborts_remaining_sections (GuardConfig.mk 3 ResetPolicy.full)
      (GuardState.mk [("inventory", 3)])
      (GuardState.mk [("inventory", 3), ("orders", 0), ("customers", 0)])
      [("orders", Except.ok [RunRequest.mk "orders-3"]),
       ("customers", Except.ok [RunRequest.mk "customers-3"])] []
      [RunRequest.mk "orders-3", RunRequest.mk "customers-3"]
      "inventory" (PyError.connectionError "inventory table unreachable (tick 4)")
      (by decide) (by decide)⟩

/-! Correctness of the decimal codec. -/

theorem charToDigit_digitToChar {d : Nat} (hd : d < 10) :
    charToDigit (digitToChar d) = d := by
  interval_cases d <;> decide

theorem isDigitCh_digitToChar {d : Nat} (hd : d < 10) :
    isDigitCh (digitToChar d) = true := by
  interval_cases d <;> decide

theorem toDecimalAux_digits {fuel n : Nat} {acc : List Char}
    (hacc : ∀ c ∈ acc, isDigitCh c = true) :
    ∀ c ∈ toDecimalAux fuel n acc, isDigitCh c = true := by
  induction fuel generalizing n acc with
  | zero => simpa [toDecimalAux] using hacc
  | succ f ih =>
    by_cases hn : n = 0
    · simpa [toDecimalAux, hn] using hacc
    · rw [toDecimalAux, if_neg hn]
      refine ih ?_
      intro c hc
      rcases List.mem_cons.mp hc with h | h
      · rw [h]
        exact isDigitCh_digitToChar (Nat.mod_lt _ (by omega))
      · exact hacc c h

theorem toDecimalAux_length {fuel n : Nat} {acc : List Char} :
    acc.length ≤ (toDecimalAux fuel n acc).length := by
  induction fuel generalizing n acc with
  | zero => simp [toDecimalAux]
  | succ f ih =>
    by_cases hn : n = 0
    · simp [toDecimalAux, hn]
    · rw [toDecimalAux, if_neg hn]
      calc acc.length ≤ (digitToChar (n % 10) :: acc).length := by simp
        _ ≤ _ := ih

theorem toDecimalAux_foldl {n : Nat} :
    ∀ {fuel : Nat}, n ≤ fuel → ∀ (acc : List Char) (a : Nat),
      List.foldl step10 a (toDecimalAux fuel n acc) =
        List.foldl step10 (combine a n) acc := by
  induction n using Nat.strong_induction_on with
  | _ n ihn =>
    intro fuel hfuel acc a
    by_cases hn : n = 0
    · subst hn
      cases fuel with
      | zero => simp [toDecimalAux, combine]
      | succ f => simp [toDecimalAux, combine]
    · have hf : ∃ f, fuel = f + 1 := ⟨fuel - 1, by omega⟩
      obtain ⟨f, rfl⟩ := hf
      rw [toDecimalAux, if_neg hn]
      have hlt : n / 10 < n := Nat.div_lt_self (by omega) (by omega)
      rw [ihn (n / 10) hlt (by omega) _ a]
      rw [List.foldl_cons]
      have hstep : step10 (combine a (n / 10)) (digitToChar (n % 10)) =
          combine a n := by
        rw [step10, charToDigit_digitToChar (Nat.mod_lt _ (by omega))]
        conv_rhs => rw [combine, if_neg hn]
      rw [hstep]

theorem digitsVal_printNat (n : Nat) : digitsVal (printNat n) = n := by
  have hcomb : ∀ m : Nat, combine 0 m = m := by
    intro m
    induction m using Nat.strong_induction_on with
    | _ m ihm =>
      by_cases hm : m = 0
      · rw [hm, combine]
        rfl
      · rw [combine, if_neg hm,
          ihm (m / 10) (Nat.div_lt_self (by omega) (by omega))]
        omega
  by_cases hn : n = 0
  · rw [hn]
    decide
  · rw [printNat, if_neg hn, digitsVal,
      toDecimalAux_foldl (Nat.le_refl n) [] 0, List.foldl_nil, hcomb]

theorem printNat_digits (n : Nat) : ∀ c ∈ printNat n, isDigitCh c = true := by
  by_cases hn : n = 0
  · rw [hn]
    decide
  · rw [printNat, if_neg hn]
    exact toDecimalAux_digits (by simp)

theorem printNat_ne_nil (n : Nat) : printNat n ≠ [] := by
  by_cases hn : n = 0
  · rw [hn]
    decide
  · intro hcontra
    have hval := digitsVal_printNat n
    rw [hcontra] at hval
    exact hn (by simpa [digitsVal] using hval.symm)

theorem printNat_inj {m n : Nat} (h : printNat m = printNat n) : m = n := by
  have hm := digitsVal_printNat m
  rw [h, digitsVal_printNat] at hm
  exact hm.symm

theorem takeWhile_digits_append {l1 l2 : List Char} {c : Char}
    (h1 : ∀ x ∈ l1, isDigitCh x = true) (hc : isDigitCh c = false) :
    (l1 ++ c :: l2).takeWhile isDigitCh = l1 ∧
    (l1 ++ c :: l2).dropWhile isDigitCh = c :: l2 := by
  induction l1 with
  | nil => simp [List.takeWhile, List.dropWhile, hc]
  | cons x xs ih =>
    have hx := h1 x (by simp)
    have hrest := ih fun y hy => h1 y (by simp [hy])
    simp only [List.cons_append, List.takeWhile_cons, List.dropWhile_cons, hx,
      if_true]
    exact ⟨by rw [hrest.1], by rw [hrest.2]⟩

theorem decodeNat_printNat {n : Nat} {c : Char} {l : List Char}
    (hc : isDigitCh c = false) :
    decodeNat (printNat n ++ c :: l) = some (n, c :: l) := by
  obtain ⟨ht, hd⟩ := @takeWhile_digits_append (printNat n) l c (printNat_digits n) hc
  simp only [decodeNat, ht, hd]
  rw [digitsVal_printNat]
  simp [printNat_ne_nil n]

theorem decodeEntry_encodeEntry (k : String) (v : Nat) (rest : List Char) :
    decodeEntry (encodeEntry k v ++ rest) = some ((k, v), rest) := by
  have hshape : encodeEntry k v ++ rest =
      printNat k.data.length ++ ',' :: (k.data ++ ',' :: (printNat v ++ ';' :: rest)) := by
    simp [encodeEntry]
  have h1 : decodeNat (printNat k.data.length ++ ',' ::
      (k.data ++ ',' :: (printNat v ++ ';' :: rest))) =
      some (k.data.length, ',' :: (k.data ++ ',' :: (printNat v ++ ';' :: rest))) :=
    decodeNat_printNat (by decide)
  have h2 : decodeNat (printNat v ++ ';' :: rest) = some (v, ';' :: rest) :=
    decodeNat_printNat (by decide)
  have hlen : k.data.length ≤ (k.data ++ ',' :: (printNat v ++ ';' :: rest)).length := by
    simp
  have htake : (k.data ++ ',' :: (printNat v ++ ';' :: rest)).take k.data.length =
      k.data := List.take_left k.data _
  have hdrop : (k.data ++ ',' :: (printNat v ++ ';' :: rest)).drop k.data.length =
      ',' :: (printNat v ++ ';' :: rest) := List.drop_left k.data _
  rw [hshape, decodeEntry, h1]
  simp only [htake, hdrop, h2, if_pos hlen]

theorem encodeEntry_ne_nil (k : String) (v : Nat) : encodeEntry k v ≠ [] := by
  simp [encodeEntry, printNat_ne_nil]

theorem decodeEntries_encodeEntries (es : List (String × Nat)) :
    ∀ fuel, es.length ≤ fuel → decodeEntries fuel (encodeEntries es) = some es := by
  induction es with
  | nil =>
    intro fuel hf
    cases fuel <;> rfl
  | cons e tl ih =>
    intro fuel hf
    obtain ⟨kk, vv⟩ := e
    have hne : encodeEntry kk vv ++ encodeEntries tl ≠ [] := by
      intro hcontra
      exact encodeEntry_ne_nil kk vv (List.append_eq_nil.mp hcontra).1
    obtain ⟨c, l, hcl⟩ := List.exists_cons_of_ne_nil hne
    obtain ⟨f, rfl⟩ : ∃ f, fuel = f + 1 := ⟨fuel - 1, by simp at hf; omega⟩
    show decodeEntries (f + 1) (encodeEntries ((kk, vv) :: tl)) = _
    rw [encodeEntries, hcl, decodeEntries, ← hcl, decodeEntry_encodeEntry]
    dsimp only
    rw [ih f (by simp at hf; omega)]

theorem deserializeGuard_serializeGuard (s : GuardState) :
    deserializeGuard (serializeGuard s) = GuardState.mk (canonicalEntries s) := by
  have hlen : (canonicalEntries s).length ≤ (serializeGuard s).length + 1 := by
    have : (canonicalEntries s).length ≤ (encodeEntries (canonicalEntries s)).length := by
      induction canonicalEntries s with
      | nil => simp [encodeEntries]
      | cons e tl ih =>
        obtain ⟨kk, vv⟩ := e
        have hpos : 0 < (encodeEntry kk vv).length :=
          List.length_pos.mpr (encodeEntry_ne_nil kk vv)
        simp only [encodeEntries, List.length_cons, List.length_append]
        omega
    simpa [serializeGuard] using Nat.le_succ_of_le this
  rw [deserializeGuard, serializeGuard,
    decodeEntries_encodeEntries (canonicalEntries s) _
      (by simpa [serializeGuard] using hlen)]

/-! Canonicalization of GuardState entries. -/

theorem insortStr_perm (x : String) (l : List String) :
    List.Perm (insortStr x l) (x :: l) := by
  induction l with
  | nil => simp [insortStr]
  | cons y ys ih =>
    by_cases h : x ≤ y
    · rw [insortStr, if_pos h]
    · rw [insortStr, if_neg h]
      exact (ih.cons y).trans (List.Perm.swap x y ys)

theorem sortStrs_perm (l : List String) : List.Perm (sortStrs l) l := by
  induction l with
  | nil => simp [sortStrs]
  | cons x xs ih =>
    have hstep : sortStrs (x :: xs) = insortStr x (sortStrs xs) := rfl
    rw [hstep]
    exact (insortStr_perm x (sortStrs xs)).trans (ih.cons x)

theorem sorted_insortStr {x : String} {l : List String}
    (hl : l.Sorted (· ≤ ·)) : (insortStr x l).Sorted (· ≤ ·) := by
  induction l with
  | nil => simp [insortStr]
  | cons y ys ih =>
    obtain ⟨hy, hys⟩ := List.sorted_cons.mp hl
    by_cases h : x ≤ y
    · rw [insortStr, if_pos h]
      refine List.sorted_cons.mpr ⟨?_, hl⟩
      intro b hb
      rcases List.mem_cons.mp hb with rfl | hb2
      · exact h
      · exact le_trans h (hy b hb2)
    · rw [insortStr, if_neg h]
      refine List.sorted_cons.mpr ⟨?_, ih hys⟩
      intro b hb
      rcases List.mem_cons.mp ((insortStr_perm x ys).mem_iff.mp hb) with rfl | hb2
      · exact le_of_not_le h
      · exact hy b hb2

theorem sorted_sortStrs (l : List String) : (sortStrs l).Sorted (· ≤ ·) := by
  induction l with
  | nil => simp [sortStrs]
  | cons x xs ih => exact sorted_insortStr ih

theorem sortStrs_eq_of_sorted {l : List String} (hl : l.Sorted (· ≤ ·)) :
    sortStrs l = l :=
  List.eq_of_perm_of_sorted (sortStrs_perm l) (sorted_sortStrs l) hl

theorem nodup_guardKeys (s : GuardState) : (guardKeys s).Nodup :=
  List.nodup_dedup _

theorem nodup_sortStrs_guardKeys (s : GuardState) :
    (sortStrs (guardKeys s)).Nodup :=
  ((sortStrs_perm (guardKeys s)).nodup_iff).mpr (nodup_guardKeys s)

theorem lookupG_not_mem {s : GuardState} {q : String}
    (h : q ∉ s.entries.map Prod.fst) : lookupG s q = 0 := by
  have hfind : s.entries.find? (fun p => p.1 == q) = none := by
    rw [List.find?_eq_none]
    intro p hp
    simp only [beq_iff_eq]
    intro hpq
    exact h (List.mem_map.mpr ⟨p, hp, hpq⟩)
  rw [lookupG, hfind]

theorem lookupG_map_self (l : List String) (f : String → Nat) (q : String) :
    lookupG (GuardState.mk (l.map (fun k => (k, f k)))) q =
      if q ∈ l then f q else 0 := by
  induction l with
  | nil => simp [lookupG]
  | cons x xs ih =>
    by_cases hx : x = q
    · subst hx
      have hfind : ((x, f x) :: xs.map (fun k => (k, f k))).find?
          (fun p => p.1 == x) = some (x, f x) :=
        List.find?_cons_of_pos _ (by simp)
      rw [lookupG]
      simp only [List.map_cons, hfind]
      simp
    · have hmem : q ∈ x :: xs ↔ q ∈ xs := by
        constructor
        · intro h
          rcases List.mem_cons.mp h with h1 | h1
          · exact absurd h1.symm hx
          · exact h1
        · exact fun h => List.mem_cons_of_mem x h
      have hfind : ((x, f x) :: xs.map (fun k => (k, f k))).find?
          (fun p => p.1 == q) = (xs.map (fun k => (k, f k))).find?
          (fun p => p.1 == q) :=
        List.find?_cons_of_neg _ (by simpa using hx)
      rw [lookupG]
      simp only [List.map_cons, hfind]
      rw [lookupG] at ih
      rw [ih]
      by_cases hq : q ∈ xs
      · rw [if_pos hq, if_pos (hmem.mpr hq)]
      · rw [if_neg hq, if_neg (fun hc => hq (hmem.mp hc))]

theorem mem_sortStrs {a : String} {l : List String} :
    a ∈ sortStrs l ↔ a ∈ l :=
  (sortStrs_perm l).mem_iff

theorem lookupG_canonical (s : GuardState) (q : String) :
    lookupG (GuardState.mk (canonicalEntries s)) q = lookupG s q := by
  rw [canonicalEntries, lookupG_map_self]
  by_cases hq : q ∈ sortStrs (guardKeys s)
  · rw [if_pos hq]
  · rw [if_neg hq]
    have hq2 : q ∉ s.entries.map Prod.fst := by
      intro hmem
      exact hq (mem_sortStrs.mpr (List.mem_dedup.mpr hmem))
    exact (lookupG_not_mem hq2).symm

theorem guardKeys_canonical (s : GuardState) :
    guardKeys (GuardState.mk (canonicalEntries s)) = sortStrs (guardKeys s) := by
  rw [guardKeys, canonicalEntries, List.map_map]
  have hcomp : (Prod.fst ∘ fun k => (k, lookupG s k)) = id := rfl
  rw [hcomp, List.map_id]
  exact List.dedup_eq_self.mpr (nodup_sortStrs_guardKeys s)

theorem canonicalEntries_idem (s : GuardState) :
    canonicalEntries (GuardState.mk (canonicalEntries s)) = canonicalEntries s := by
  have h1 : canonicalEntries (GuardState.mk (canonicalEntries s)) =
      (sortStrs (sortStrs (guardKeys s))).map
        (fun k => (k, lookupG (GuardState.mk (canonicalEntries s)) k)) := by
    rw [canonicalEntries, guardKeys_canonical]
  rw [h1, sortStrs_eq_of_sorted (sorted_sortStrs _)]
  have h2 : canonicalEntries s =
      (sortStrs (guardKeys s)).map (fun k => (k, lookupG s k)) := rfl
  conv_rhs => rw [h2]
  exact List.map_congr_left fun a _ => by rw [lookupG_canonical]

/-- C8: serialize, deserialize, serialize is byte-for-byte the identity on
the first serialization; moreover the encoding is a function of the
key-to-count mapping only: two states with the same key set and the same
per-key counts (whatever the order and duplication of their underlying
entry lists) serialize to identical bytes. -/
theorem serialize_roundtrip_and_order_independent (s s1 s2 : GuardState)
    (hkeys : ∀ q, q ∈ guardKeys s1 ↔ q ∈ guardKeys s2)
    (hvals : ∀ q, lookupG s1 q = lookupG s2 q) :
    serializeGuard (deserializeGuard (serializeGuard s)) = serializeGuard s ∧
    serializeGuard s1 = serializeGuard s2 := by
  constructor
  · rw [deserializeGuard_serializeGuard, serializeGuard, serializeGuard,
      canonicalEntries_idem]
  · have hsort : sortStrs (guardKeys s1) = sortStrs (guardKeys s2) := by
      refine List.eq_of_perm_of_sorted ?_ (sorted_sortStrs _) (sorted_sortStrs _)
      refine ((sortStrs_perm _).trans ?_).trans (sortStrs_perm _).symm
      exact (List.perm_ext_iff_of_nodup (nodup_guardKeys s1)
        (nodup_guardKeys s2)).mpr hkeys
    rw [serializeGuard, serializeGuard, canonicalEntries, canonicalEntries, hsort]
    have hmap : (sortStrs (guardKeys s2)).map (fun k => (k, lookupG s1 k)) =
        (sortStrs (guardKeys s2)).map (fun k => (k, lookupG s2 k)) :=
      List.map_congr_left fun a _ => by rw [hvals a]
    rw [hmap]

/-- C9: restoring GuardState from a cursor never fails and is the empty
state whenever the guard portion is missing (the token does not split),
empty, or malformed (its entry list does not decode); in the empty state
every key's counter reads 0. -/
theorem malformed_guard_restores_empty (cursor : String) (g : List Char)
    (host : String) :
    (splitCursor cursor = none → (restoreFromCursor cursor).1 = emptyG) ∧
    (splitCursor cursor = some ([], host) →
      (restoreFromCursor cursor).1 = emptyG) ∧
    (splitCursor cursor = some (g, host) →
      decodeEntries (g.length + 1) g = none →
      (restoreFromCursor cursor).1 = emptyG) ∧
    (∀ q, lookupG emptyG q = 0) := by
  refine ⟨?_, ?_, ?_, fun q => rfl⟩
  · intro h
    rw [restoreFromCursor, h]
  · intro h
    rw [restoreFromCursor, h]
    rfl
  · intro h hdec
    rw [restoreFromCursor, h]
    show deserializeGuard g = emptyG
    rw [deserializeGuard, hdec]

theorem serialize_roundtrip_and_order_independent_witness :
    (∀ q, q ∈ guardKeys (GuardState.mk [("orders", 1), ("inventory", 4)]) ↔
      q ∈ guardKeys (GuardState.mk [("inventory", 4), ("orders", 1)])) ∧
    (∀ q, lookupG (GuardState.mk [("orders", 1), ("inventory", 4)]) q =
      lookupG (GuardState.mk [("inventory", 4), ("orders", 1)]) q) ∧
    (serializeGuard (deserializeGuard (serializeGuard
        (GuardState.mk [("b", 2), ("a", 1)]))) =
      serializeGuard (GuardState.mk [("b", 2), ("a", 1)]) ∧
     serializeGuard (GuardState.mk [("orders", 1), ("inventory", 4)]) =
      serializeGuard (GuardState.mk [("inventory", 4), ("orders", 1)])) := by
  have hkeys : ∀ q, q ∈ guardKeys (GuardState.mk [("orders", 1), ("inventory", 4)]) ↔
      q ∈ guardKeys (GuardState.mk [("inventory", 4), ("orders", 1)]) := by
    intro q
    show q ∈ ["orders", "inventory"] ↔ q ∈ ["inventory", "orders"]
    constructor <;> intro h <;> simp at h ⊢ <;> tauto
  have hvals : ∀ q, lookupG (GuardState.mk [("orders", 1), ("inventory", 4)]) q =
      lookupG (GuardState.mk [("inventory", 4), ("orders", 1)]) q := by
    intro q
    by_cases h1 : "orders" = q
    · subst h1
      rfl
    · by_cases h2 : "inventory" = q
      · subst h2
        rfl
      · have e1 : ("orders" == q) = false := by simpa using h1
        have e2 : ("inventory" == q) = false := by simpa using h2
        rw [lookupG, lookupG]
        rw [List.find?_cons_of_neg _ (by simp [e1]),
          List.find?_cons_of_neg _ (by simp [e2]),
          List.find?_cons_of_neg _ (by simp [e2]),
          List.find?_cons_of_neg _ (by simp [e1])]
  exact ⟨hkeys, hvals,
    serialize_roundtrip_and_order_independent
      (GuardState.mk [("b", 2), ("a", 1)])
      (GuardState.mk [("orders", 1), ("inventory", 4)])
      (GuardState.mk [("inventory", 4), ("orders", 1)]) hkeys hvals⟩

theorem malformed_guard_restores_empty_witness :
    (splitCursor "guard" = none ∧ (restoreFromCursor "guard").1 = emptyG) ∧
    (splitCursor "0|42" = some ([], "42") ∧
      (restoreFromCursor "0|42").1 = emptyG) ∧
    (splitCursor "1|X" = some (['X'], "") ∧
      decodeEntries (['X'].length + 1) ['X'] = none ∧
      (restoreFromCursor "1|X").1 = emptyG) :=
  ⟨⟨by decide, (malformed_guard_restores_empty "guard" [] "").1 (by decide)⟩,
   ⟨by decide, (malformed_guard_restores_empty "0|42" [] "42").2.1 (by decide)⟩,
   ⟨by decide, by decide,
    (malformed_guard_restores_empty "1|X" ['X'] "").2.2.1 (by decide) (by decide)⟩⟩

/-! The combined cursor token round-trips through split. -/

theorem splitCursor_composeCursor (g : List Char) (host : String) :
    splitCursor (composeCursor g host) = some (g, host) := by
  have hdata : (composeCursor g host).data =
      printNat g.length ++ '|' :: (g ++ host.data) := rfl
  have h1 : decodeNat (printNat g.length ++ '|' :: (g ++ host.data)) =
      some (g.length, '|' :: (g ++ host.data)) := decodeNat_printNat (by decide)
  rw [splitCursor, hdata, h1]
  dsimp only
  have hcond : ('|' = '|' ∧ g.length ≤ (g ++ host.data).length) := by
    constructor
    · rfl
    · simp
  rw [if_pos hcond]
  rw [List.take_left g host.data, List.drop_left g host.data]

theorem restoreFromCursor_composeCursor (s : GuardState) (host : String) :
    restoreFromCursor (composeCursor (serializeGuard s) host) =
      (GuardState.mk (canonicalEntries s), host) := by
  rw [restoreFromCursor, splitCursor_composeCursor]
  dsimp only
  rw [deserializeGuard_serializeGuard]

/-! Characterization of one adapter tick. -/

theorem runTick_eq_ok {cfg : GuardConfig} {cursor : String}
    {task : String → Except PyError (List RunRequest × String)}
    {rh : List RunRequest × String}
    (htask : task (restoreFromCursor cursor).2 = Except.ok rh) :
    runTick cfg cursor task =
      (composeCursor (serializeGuard
         (setG (restoreFromCursor cursor).1 defaultKey
           (applyReset cfg.policy
             (lookupG (restoreFromCursor cursor).1 defaultKey)))) rh.2,
       HostOutcome.requests rh.1) := by
  rw [runTick]
  rw [htask, evaluate_ok_eq]

theorem runTick_eq_error_br {cfg : GuardConfig} {cursor : String}
    {task : String → Except PyError (List RunRequest × String)} {e0 : PyError}
    (htask : task (restoreFromCursor cursor).2 = Except.error e0)
    (hbr : cfg.threshold < lookupG (restoreFromCursor cursor).1 defaultKey + 1) :
    runTick cfg cursor task =
      (composeCursor (serializeGuard
         (setG (restoreFromCursor cursor).1 defaultKey
           (lookupG (restoreFromCursor cursor).1 defaultKey + 1)))
         (restoreFromCursor cursor).2,
       HostOutcome.failure e0) := by
  rw [runTick]
  rw [htask, evaluate_error_eq_breached _ _ _ _ hbr]

theorem runTick_eq_error_sup {cfg : GuardConfig} {cursor : String}
    {task : String → Except PyError (List RunRequest × String)} {e0 : PyError}
    (htask : task (restoreFromCursor cursor).2 = Except.error e0)
    (hns : ¬ cfg.threshold < lookupG (restoreFromCursor cursor).1 defaultKey + 1) :
    runTick cfg cursor task =
      (composeCursor (serializeGuard
         (setG (restoreFromCursor cursor).1 defaultKey
           (lookupG (restoreFromCursor cursor).1 defaultKey + 1)))
         (restoreFromCursor cursor).2,
       HostOutcome.skip (skipMsg defaultKey
         (lookupG (restoreFromCursor cursor).1 defaultKey + 1) cfg.threshold)) := by
  rw [runTick]
  rw [htask, evaluate_error_eq_suppressed _ _ _ _ hns]

/-- C4: a Breached decision always carries exactly the error value raised
by the wrapped work, never a synthesized or wrapped one; and when the
adapter reports a failure to the host, that propagated value is exactly
the error the task raised (in this embedding a PyError value is the Python
exception type together with its message). -/
theorem breach_carries_original_error (cfg : GuardConfig) :
    (∀ (s : GuardState) (k : String) (work : Except PyError Unit)
       (e : PyError) (n t : Nat),
       (evaluate cfg s k work).1 = Decision.breached e n t →
       work = Except.error e) ∧
    (∀ (cursor : String)
       (task : String → Except PyError (List RunRequest × String)) (e : PyError),
       (runTick cfg cursor task).2 = HostOutcome.failure e →
       task (restoreFromCursor cursor).2 = Except.error e) := by
  constructor
  · intro s k work e n t hbr
    cases work with
    | ok r =>
      rw [evaluate_ok_eq] at hbr
      exact absurd hbr (by simp)
    | error e0 =>
      rw [evaluate_error_fst] at hbr
      by_cases hc : cfg.threshold < lookupG s k + 1
      · rw [if_pos hc] at hbr
        have he : e0 = e := (Decision.breached.injEq ..).mp hbr |>.1
        rw [he]
      · rw [if_neg hc] at hbr
        exact absurd hbr (by simp)
  · intro cursor task e hout
    cases htask : task (restoreFromCursor cursor).2 with
    | ok rh =>
      rw [runTick_eq_ok htask] at hout
      exact absurd hout (by simp)
    | error e0 =>
      by_cases hc : cfg.threshold <
          lookupG (restoreFromCursor cursor).1 defaultKey + 1
      · rw [runTick_eq_error_br htask hc] at hout
        have h2 : HostOutcome.failure (ε := PyError) (ρ := List RunRequest) e0 =
            HostOutcome.failure e := hout
        injection h2 with he
        rw [he]
      · rw [runTick_eq_error_sup htask hc] at hout
        exact absurd hout (by simp)

theorem breach_carries_original_error_witness :
    (evaluate (GuardConfig.mk 3 ResetPolicy.full)
        (GuardState.mk [("default", 3)]) "default"
        (Except.error (PyError.connectionError
          "Simulated external service unreachable") : Except PyError Unit)).1 =
      Decision.breached
        (PyError.connectionError "Simulated external service unreachable") 4 3 ∧
    (Except.error (PyError.connectionError
        "Simulated external service unreachable") : Except PyError Unit) =
      Except.error (PyError.connectionError
        "Simulated external service unreachable") ∧
    (runTick (GuardConfig.mk 3 ResetPolicy.full)
        (composeCursor (serializeGuard (GuardState.mk [("default", 3)])) "5")
        alwaysFailingTask).2 =
      HostOutcome.failure
        (PyError.connectionError "Simulated external service unreachable") ∧
    alwaysFailingTask (restoreFromCursor
        (composeCursor (serializeGuard (GuardState.mk [("default", 3)])) "5")).2 =
      Except.error
        (PyError.connectionError "Simulated external service unreachable") :=
  ⟨by decide,
   (breach_carries_original_error (GuardConfig.mk 3 ResetPolicy.full)).1
     (GuardState.mk [("default", 3)]) "default"
     (Except.error (PyError.connectionError
       "Simulated external service unreachable")) _ 4 3 (by decide),
   by decide,
   (breach_carries_original_error (GuardConfig.mk 3 ResetPolicy.full)).2
     (composeCursor (serializeGuard (GuardState.mk [("default", 3)])) "5")
     alwaysFailingTask _ (by decide)⟩

/-- C5: on every exit path of an adapter invocation - success, suppression,
or breach propagation - the updated GuardState is serialized back into the
returned cursor: the state restored from the new cursor agrees key by key
with the post-evaluation state; in particular when the outcome is a
propagated failure the restored counter of the implicit key is the
pre-tick counter plus one, so the next invocation starts from the
post-failure count, never the pre-failure one. -/
theorem state_persisted_on_every_exit (cfg : GuardConfig) (cursor : String)
    (task : String → Except PyError (List RunRequest × String)) :
    (∀ q, lookupG (restoreFromCursor (runTick cfg cursor task).1).1 q =
      lookupG (evaluate cfg (restoreFromCursor cursor).1 defaultKey
        (task (restoreFromCursor cursor).2)).2 q) ∧
    (∀ e, (runTick cfg cursor task).2 = HostOutcome.failure e →
      lookupG (restoreFromCursor (runTick cfg cursor task).1).1 defaultKey =
        lookupG (restoreFromCursor cursor).1 defaultKey + 1) := by
  have hmain : ∀ q, lookupG (restoreFromCursor (runTick cfg cursor task).1).1 q =
      lookupG (evaluate cfg (restoreFromCursor cursor).1 defaultKey
        (task (restoreFromCursor cursor).2)).2 q := by
    intro q
    cases htask : task (restoreFromCursor cursor).2 with
    | ok rh =>
      rw [runTick_eq_ok htask]
      dsimp only
      rw [restoreFromCursor_composeCursor, evaluate_ok_eq]
      exact lookupG_canonical _ q
    | error e0 =>
      by_cases hc : cfg.threshold <
          lookupG (restoreFromCursor cursor).1 defaultKey + 1
      · rw [runTick_eq_error_br htask hc]
        dsimp only
        rw [restoreFromCursor_composeCursor, evaluate_error_snd]
        exact lookupG_canonical _ q
      · rw [runTick_eq_error_sup htask hc]
        dsimp only
        rw [restoreFromCursor_composeCursor, evaluate_error_snd]
        exact lookupG_canonical _ q
  refine ⟨hmain, ?_⟩
  intro e hout
  rw [hmain defaultKey]
  cases htask : task (restoreFromCursor cursor).2 with
  | error e0 => rw [evaluate_error_snd, lookupG_setG_same]
  | ok rh =>
    rw [runTick_eq_ok htask] at hout
    exact absurd hout (by simp)

theorem state_persisted_on_every_exit_witness :
    (runTick (GuardConfig.mk 3 ResetPolicy.full)
        (composeCursor (serializeGuard (GuardState.mk [("default", 3)])) "7")
        alwaysFailingTask).2 =
      HostOutcome.failure
        (PyError.connectionError "Simulated external service unreachable") ∧
    lookupG (restoreFromCursor (runTick (GuardConfig.mk 3 ResetPolicy.full)
        (composeCursor (serializeGuard (GuardState.mk [("default", 3)])) "7")
        alwaysFailingTask).1).1 defaultKey =
      lookupG (restoreFromCursor
        (composeCursor (serializeGuard (GuardState.mk [("default", 3)])) "7")).1
        defaultKey + 1 :=
  ⟨by decide,
   (state_persisted_on_every_exit (GuardConfig.mk 3 ResetPolicy.full)
      (composeCursor (serializeGuard (GuardState.mk [("default", 3)])) "7")
      alwaysFailingTask).2
     (PyError.connectionError "Simulated external service unreachable")
     (by decide)⟩

/-! Behaviour of the scripted demo sensor bodies (from src). -/

theorem pyIntOr0_host {host : String} {n : Nat}
    (hhost : host = String.mk (printNat n) ∨ (host = "" ∧ n = 0)) :
    pyIntOr0 host = some n ∧ cursorText host = String.mk (printNat n) := by
  rcases hhost with h | ⟨h, hn⟩
  · subst h
    have hne : (printNat n).isEmpty = false := by
      cases hpn : printNat n with
      | nil => exact absurd hpn (printNat_ne_nil n)
      | cons a l => rfl
    have hall : (printNat n).all isDigitCh = true :=
      List.all_eq_true.mpr (printNat_digits n)
    constructor
    · rw [pyIntOr0]
      show (if (printNat n).isEmpty then some 0
        else if (printNat n).all isDigitCh then some (digitsVal (printNat n))
        else none) = some n
      rw [hne, hall]
      show some (digitsVal (printNat n)) = some n
      rw [digitsVal_printNat]
    · rw [cursorText]
      show (if (printNat n).isEmpty then String.mk (printNat 0)
        else String.mk (printNat n)) = String.mk (printNat n)
      rw [hne]
      rfl
  · subst h
    subst hn
    exact ⟨rfl, rfl⟩

theorem scriptedTask_ok {stem : String} {script : List Bool} {e : PyError}
    {tick n : Nat} {host : String}
    (hfail : failsAt script tick = false)
    (hhost : host = String.mk (printNat n) ∨ (host = "" ∧ n = 0)) :
    scriptedTask stem script e tick host =
      Except.ok ([RunRequest.mk (stem ++ "-" ++ String.mk (printNat n))],
        String.mk (printNat (n + 1))) := by
  obtain ⟨hint, htext⟩ := pyIntOr0_host hhost
  have hcond : ¬ (tick < script.length ∧ script.getD tick true = false) := by
    intro hand
    rw [failsAt, decide_eq_true hand.1, hand.2] at hfail
    simp at hfail
  rw [scriptedTask, if_neg hcond, hint]
  dsimp only
  rw [htext]

theorem scriptedTask_fail {stem : String} {script : List Bool} {e : PyError}
    {tick : Nat} {host : String} (hfail : failsAt script tick = true) :
    scriptedTask stem script e tick host = Except.error e := by
  have hcond : tick < script.length ∧ script.getD tick true = false := by
    rw [failsAt] at hfail
    simpa using hfail
  rw [scriptedTask, if_pos hcond]

theorem successVals_ge (script : List Bool) :
    ∀ (count tick n : Nat), ∀ v ∈ successVals script count tick n, n ≤ v := by
  intro count
  induction count with
  | zero =>
    intro tick n v hv
    simp [successVals] at hv
  | succ c ih =>
    intro tick n v hv
    rw [successVals] at hv
    by_cases hfail : failsAt script tick = true
    · rw [if_pos hfail] at hv
      exact ih (tick + 1) n v hv
    · rw [if_neg hfail] at hv
      rcases List.mem_cons.mp hv with rfl | hv2
      · exact Nat.le_refl v
      · have := ih (tick + 1) (n + 1) v hv2
        omega

theorem successVals_nodup (script : List Bool) :
    ∀ (count tick n : Nat), (successVals script count tick n).Nodup := by
  intro count
  induction count with
  | zero =>
    intro tick n
    simp [successVals]
  | succ c ih =>
    intro tick n
    rw [successVals]
    by_cases hfail : failsAt script tick = true
    · rw [if_pos hfail]
      exact ih (tick + 1) n
    · rw [if_neg hfail]
      refine List.nodup_cons.mpr ⟨?_, ih (tick + 1) (n + 1)⟩
      intro hmem
      have := successVals_ge script c (tick + 1) (n + 1) n hmem
      omega

theorem run_key_inj (stem : String) :
    Function.Injective (fun v : Nat => stem ++ "-" ++ String.mk (printNat v)) := by
  intro v w h
  have hdata := congrArg String.data h
  rw [String.data_append, String.data_append] at hdata
  exact printNat_inj (List.append_cancel_left hdata)

theorem runScripted_keys (cfg : GuardConfig) (stem : String)
    (script : List Bool) (e : PyError) :
    ∀ (count tick n : Nat) (cursor : String),
      ((restoreFromCursor cursor).2 = String.mk (printNat n) ∨
        ((restoreFromCursor cursor).2 = "" ∧ n = 0)) →
      (runScripted cfg stem script e count tick cursor).2 =
        (successVals script count tick n).map
          (fun v => stem ++ "-" ++ String.mk (printNat v)) := by
  intro count
  induction count with
  | zero =>
    intro tick n cursor hhost
    rfl
  | succ c ih =>
    intro tick n cursor hhost
    rw [runScripted]
    dsimp only
    by_cases hfail : failsAt script tick = true
    · have htask : scriptedTask stem script e tick (restoreFromCursor cursor).2 =
          Except.error e := scriptedTask_fail hfail
      rw [successVals, if_pos hfail]
      by_cases hc : cfg.threshold <
          lookupG (restoreFromCursor cursor).1 defaultKey + 1
      · rw [runTick_eq_error_br htask hc]
        dsimp only
        rw [List.nil_append]
        refine ih (tick + 1) n _ ?_
        rw [restoreFromCursor_composeCursor]
        exact hhost
      · rw [runTick_eq_error_sup htask hc]
        dsimp only
        rw [List.nil_append]
        refine ih (tick + 1) n _ ?_
        rw [restoreFromCursor_composeCursor]
        exact hhost
    · have hfail2 : failsAt script tick = false := by
        cases hx : failsAt script tick
        · rfl
        · exact absurd hx hfail
      have htask : scriptedTask stem script e tick (restoreFromCursor cursor).2 =
          Except.ok ([RunRequest.mk (stem ++ "-" ++ String.mk (printNat n))],
            String.mk (printNat (n + 1))) := scriptedTask_ok hfail2 hhost
      rw [successVals, if_neg hfail]
      rw [runTick_eq_ok htask]
      dsimp only
      rw [List.map_cons]
      have hrest := ih (tick + 1) (n + 1)
        (composeCursor (serializeGuard
          (setG (restoreFromCursor cursor).1 defaultKey
            (applyReset cfg.policy
              (lookupG (restoreFromCursor cursor).1 defaultKey))))
          (String.mk (printNat (n + 1))))
        (by rw [restoreFromCursor_composeCursor]; exact Or.inl rfl)
      rw [hrest]
      rfl

/-- C10: the wrapped task observes exactly the host payload of the cursor,
with the guard portion absent (the tick outcome depends on the task only
through its value at the host payload); on a successful tick of a scripted
demo sensor whose visible cursor reads as the integer n, exactly one
RunRequest is emitted, its run key embedding the decimal text of n, and
the visible cursor becomes the decimal successor of n; on a failing tick
the visible cursor is unchanged and no RunRequest is emitted; and over any
whole run from a fresh cursor the emitted run keys are pairwise distinct. -/
theorem task_visible_cursor_behaviour (cfg : GuardConfig) (cursor : String)
    (stem : String) (script : List Bool) (e : PyError) (tick n count : Nat) :
    (∀ task1 task2 : String → Except PyError (List RunRequest × String),
      task1 (restoreFromCursor cursor).2 = task2 (restoreFromCursor cursor).2 →
      runTick cfg cursor task1 = runTick cfg cursor task2) ∧
    (((restoreFromCursor cursor).2 = String.mk (printNat n) ∨
        ((restoreFromCursor cursor).2 = "" ∧ n = 0)) →
      failsAt script tick = false →
      (runTick cfg cursor (scriptedTask stem script e tick)).2 =
        HostOutcome.requests
          [RunRequest.mk (stem ++ "-" ++ String.mk (printNat n))] ∧
      (restoreFromCursor
        (runTick cfg cursor (scriptedTask stem script e tick)).1).2 =
        String.mk (printNat (n + 1))) ∧
    (failsAt script tick = true →
      (∀ rs : List RunRequest,
        (runTick cfg cursor (scriptedTask stem script e tick)).2 ≠
          HostOutcome.requests rs) ∧
      (restoreFromCursor
        (runTick cfg cursor (scriptedTask stem script e tick)).1).2 =
        (restoreFromCursor cursor).2) ∧
    (runScripted cfg stem script e count 0 "").2.Nodup := by
  refine ⟨?_, ?_, ?_, ?_⟩
  · intro task1 task2 h
    rw [runTick, runTick, h]
  · intro hhost hfail
    have htask : scriptedTask stem script e tick (restoreFromCursor cursor).2 =
        Except.ok ([RunRequest.mk (stem ++ "-" ++ String.mk (printNat n))],
          String.mk (printNat (n + 1))) := scriptedTask_ok hfail hhost
    constructor
    · rw [runTick_eq_ok htask]
    · rw [runTick_eq_ok htask]
      dsimp only
      rw [restoreFromCursor_composeCursor]
  · intro hfail
    have htask : scriptedTask stem script e tick (restoreFromCursor cursor).2 =
        Except.error e := scriptedTask_fail hfail
    by_cases hc : cfg.threshold <
        lookupG (restoreFromCursor cursor).1 defaultKey + 1
    · rw [runTick_eq_error_br htask hc]
      refine ⟨fun rs => by simp, ?_⟩
      dsimp only
      rw [restoreFromCursor_composeCursor]
    · rw [runTick_eq_error_sup htask hc]
      refine ⟨fun rs => by simp, ?_⟩
      dsimp only
      rw [restoreFromCursor_composeCursor]
  · have hkeys := runScripted_keys cfg stem script e count 0 0 ""
      (Or.inr ⟨rfl, rfl⟩)
    rw [hkeys]
    exact (successVals_nodup script count 0 0).map (run_key_inj stem)

theorem task_visible_cursor_behaviour_witness :
    ((restoreFromCursor (composeCursor
        (serializeGuard (GuardState.mk [("default", 1)])) "4")).2 =
      String.mk (printNat 4) ∨
      ((restoreFromCursor (composeCursor
        (serializeGuard (GuardState.mk [("default", 1)])) "4")).2 = "" ∧
        (4 : Nat) = 0)) ∧
    failsAt flakyScript 1 = false ∧
    ((runTick (GuardConfig.mk 3 (ResetPolicy.decay 1))
        (composeCursor (serializeGuard (GuardState.mk [("default", 1)])) "4")
        (scriptedTask "flaky" flakyScript
          (PyError.connectionError "Simulated intermittent timeout") 1)).2 =
      HostOutcome.requests
        [RunRequest.mk ("flaky" ++ "-" ++ String.mk (printNat 4))] ∧
     (restoreFromCursor (runTick (GuardConfig.mk 3 (ResetPolicy.decay 1))
        (composeCursor (serializeGuard (GuardState.mk [("default", 1)])) "4")
        (scriptedTask "flaky" flakyScript
          (PyError.connectionError "Simulated intermittent timeout") 1)).1).2 =
      String.mk (printNat (4 + 1))) ∧
    (runScripted (GuardConfig.mk 3 (ResetPolicy.decay 1)) "flaky" flakyScript
      (PyError.connectionError "Simulated intermittent timeout")
      16 0 "").2.Nodup :=
  ⟨Or.inl (by decide), by decide,
   (task_visible_cursor_behaviour (GuardConfig.mk 3 (ResetPolicy.decay 1))
      (composeCursor (serializeGuard (GuardState.mk [("default", 1)])) "4")
      "flaky" flakyScript
      (PyError.connectionError "Simulated intermittent timeout")
      1 4 16).2.1 (Or.inl (by decide)) (by decide),
   (task_visible_cursor_behaviour (GuardConfig.mk 3 (ResetPolicy.decay 1))
      (composeCursor (serializeGuard (GuardState.mk [("default", 1)])) "4")
      "flaky" flakyScript
      (PyError.connectionError "Simulated intermittent timeout")
      1 4 16).2.2.2⟩

end SensorGuard
